import Mathlib

/-!
Verification development for the hobo-plus helper library.

The repository has two source files:
  - src/lib.rs: the animation frame loop animation_with_window and small
    helpers around the browser window;
  - src/element_ext.rs: the AsElementExt extension trait, with click
    tracking (report_clicked / clicked), the slide gesture handler
    (add_on_slide), and the flip_if_offscreen positioning helper.

We embed the observable behavior of these functions.  Timestamps, pixel
coordinates and screen geometry are modelled by rationals (the Rust code
uses f64; all operations the claims exercise are exact subtractions,
divisions and comparisons).  The browser host is modelled explicitly: a
tick of requestAnimationFrame delivers a timestamp and a report of
window.closed(), and the number of pending registrations is tracked as a
field of the loop state.
-/

namespace HoboPlus

/-! ## The frame loop of animation_with_window (src/lib.rs lines 45-70)

State owned by the loop across ticks:
  - lastTimestamp: the Option timestamp of the previous recorded tick
    (the last_timestamp captured variable);
  - cbAlive: whether the Rc RefCell cell cb still holds the closure
    (it is emptied by the take() calls on lines 55 and 66);
  - pending: how many requestAnimationFrame registrations are currently
    pending with the host window;
  - fstate: the internal state of the user callback f, which is an FnMut
    closure; f is modelled as a pure function from its state and the
    delta argument to the returned Bool and its next state. -/

structure LoopState (σ : Type) where
  lastTimestamp : Option ℚ
  cbAlive : Bool
  pending : Nat
  fstate : σ
deriving DecidableEq, Repr

/-- One delivery from the host: whether window.closed() returned
Ok(true), Ok(false) or Err (modelled as Option Bool, none for Err), and
the timestamp argument passed to the closure. -/
structure TickInput where
  closed : Option Bool
  timestamp : ℚ
deriving DecidableEq, Repr

/-- Line 55: window.closed().unwrap_or(true). -/
def windowClosed (inp : TickInput) : Bool := inp.closed.getD true

/-- What the host observed when it tried to deliver a tick: either there
was no pending registration so no tick occurred, or the closure ran and
either invoked f with some delta or returned without invoking f. -/
inductive FireResult where
  | noTick
  | ticked (fCalled : Option ℚ)
deriving DecidableEq, Repr

/-- One delivery attempt by the host.  If no registration is pending
nothing happens.  Otherwise the pending registration is consumed and the
closure body of animation_with_window (src/lib.rs lines 51-68) runs:
  - line 55: if the window is closed, the cell cb is emptied and the
    closure returns without touching last_timestamp or f;
  - lines 56-60: with no prior timestamp, the closure re-arms one
    registration, records the timestamp, and returns without invoking f;
  - lines 61-67: otherwise delta_t = timestamp - last_timestamp is
    computed, last_timestamp is updated, and f(delta_t) runs; on true one
    registration is re-armed, on false the cell cb is emptied. -/
def fire {σ : Type} (f : σ → ℚ → Bool × σ) (inp : TickInput) (s : LoopState σ) :
    LoopState σ × FireResult :=
  if s.pending = 0 then (s, FireResult.noTick)
  else if windowClosed inp then
    (⟨s.lastTimestamp, false, s.pending - 1, s.fstate⟩, FireResult.ticked none)
  else
    match s.lastTimestamp with
    | none =>
      (⟨some inp.timestamp, s.cbAlive, s.pending - 1 + 1, s.fstate⟩, FireResult.ticked none)
    | some last =>
      if (f s.fstate (inp.timestamp - last)).1 then
        (⟨some inp.timestamp, s.cbAlive, s.pending - 1 + 1, (f s.fstate (inp.timestamp - last)).2⟩,
          FireResult.ticked (some (inp.timestamp - last)))
      else
        (⟨some inp.timestamp, false, s.pending - 1, (f s.fstate (inp.timestamp - last)).2⟩,
          FireResult.ticked (some (inp.timestamp - last)))

/-- The state right after animation_with_window returns (lines 49-50 and
69): no timestamp recorded yet, the closure stored in cb, and exactly one
registration pending from the initial request_animation_frame call. -/
def initState {σ : Type} (fs : σ) : LoopState σ := ⟨none, true, 1, fs⟩

/-- A whole run: the host attempts one delivery per input, in order. -/
def runLoop {σ : Type} (f : σ → ℚ → Bool × σ) :
    List TickInput → LoopState σ → LoopState σ × List FireResult
  | [], s => (s, [])
  | inp :: rest, s =>
    ((runLoop f rest (fire f inp s).1).1, (fire f inp s).2 :: (runLoop f rest (fire f inp s).1).2)

/-! ### Helper lemmas about the loop -/

theorem fire_pending_zero {σ : Type} (f : σ → ℚ → Bool × σ) (inp : TickInput)
    (s : LoopState σ) (h : s.pending = 0) : fire f inp s = (s, FireResult.noTick) := by
  simp [fire, h]

theorem runLoop_halted {σ : Type} (f : σ → ℚ → Bool × σ) (inps : List TickInput)
    (s : LoopState σ) (h : s.pending = 0) :
    runLoop f inps s = (s, inps.map fun _ => FireResult.noTick) := by
  induction inps with
  | nil => simp [runLoop]
  | cons inp rest ih => simp [runLoop, fire_pending_zero f inp s h, ih]

/-- The loop invariant: at most one registration is pending, and once the
closure cell has been emptied nothing is pending. -/
def LoopInv {σ : Type} (s : LoopState σ) : Prop :=
  s.pending ≤ 1 ∧ (s.cbAlive = false → s.pending = 0)

theorem loopInv_init {σ : Type} (fs : σ) : LoopInv (initState fs) := by
  constructor <;> simp [initState]

theorem fire_preserves_inv {σ : Type} (f : σ → ℚ → Bool × σ) (inp : TickInput)
    (s : LoopState σ) (h : LoopInv s) : LoopInv ((fire f inp s).1) := by
  obtain ⟨h1, h2⟩ := h
  by_cases hp : s.pending = 0
  · simpa [fire, hp] using ⟨h1, h2⟩
  · have hone : s.pending = 1 := by omega
    have halive : s.cbAlive = true := by
      rcases Bool.eq_false_or_eq_true s.cbAlive with ht | hf
      · exact ht
      · exact absurd (h2 hf) hp
    by_cases hc : windowClosed inp
    · simp [fire, hp, hc, LoopInv, hone]
    · rcases hl : s.lastTimestamp with _ | last
      · simp [fire, hp, hc, hl, LoopInv, hone, halive]
      · by_cases hf : (f s.fstate (inp.timestamp - last)).1
        · simp [fire, hp, hc, hl, hf, LoopInv, hone, halive]
        · simp [fire, hp, hc, hl, hf, LoopInv, hone]

theorem runLoop_preserves_inv {σ : Type} (f : σ → ℚ → Bool × σ) (inps : List TickInput)
    (s : LoopState σ) (h : LoopInv s) : LoopInv ((runLoop f inps s).1) := by
  induction inps generalizing s with
  | nil => simpa [runLoop] using h
  | cons inp rest ih =>
    simpa [runLoop] using ih (fire f inp s).1 (fire_preserves_inv f inp s h)

/-! ## Elements and click tracking (src/element_ext.rs)

An element is modelled by the pieces of ECS state the claims observe: the
optional Clicked component (a struct holding one Bool, line 12), and the
counts of attached mouse-down handlers and window mouse-up bundles, which
report_clicked_on_window adds on lines 47-48. -/

structure Element where
  clickedCmp : Option Bool
  mouseDownHandlers : Nat
  mouseUpBundles : Nat
deriving DecidableEq, Repr

/-- src/element_ext.rs lines 43-51: if the Clicked component is already
present (try_get_cmp is_some) the element is returned unchanged; else a
Clicked(false) component is added together with one mouse-down handler on
the element and one mouse-up bundle on the window. -/
def report_clicked_on_window (e : Element) : Element :=
  if e.clickedCmp.isSome then e
  else ⟨some false, e.mouseDownHandlers + 1, e.mouseUpBundles + 1⟩

/-- src/element_ext.rs lines 33-35: report_clicked delegates to
report_clicked_on_window with the default window; the window argument
plays no role in the modelled state. -/
def report_clicked (e : Element) : Element := report_clicked_on_window e

/-- src/element_ext.rs line 55:
self.try_get_cmp Clicked .is_some_and(x.0). -/
def clicked (e : Element) : Bool :=
  match e.clickedCmp with
  | some b => b
  | none => false

/-! ## The slide handler (src/element_ext.rs lines 165-174) -/

/-- Rust f64 clamp on exact values: below the lower bound gives the lower
bound, above the upper gives the upper, otherwise the value itself. -/
def rustClamp (x lo hi : ℚ) : ℚ :=
  if x < lo then lo else if x > hi then hi else x

/-- The mouse-move closure installed by add_on_slide: if the element is
not clicked it returns without calling f (line 169); otherwise f receives
clamp((mouse_x - left) / width, 0, 1) (lines 170-172).  The result is the
argument passed to f, or none when f is not invoked.  The geometry reads
self.left() and self.width() are passed in as rationals. -/
def slideHandler (e : Element) (left width mouse_x : ℚ) : Option ℚ :=
  if !(clicked e) then none
  else some (rustClamp ((mouse_x - left) / width) 0 1)

/-! ## flip_if_offscreen (src/element_ext.rs lines 89-146)

The relevant fragment of the css crate value types: the function matches
positional properties Top, Bottom, Left and Right whose PositionOffset is
Some with a Px unit, and emits offsets of the shape calc(100% + v px) or
calc(100% - v px); every other unit and every other property shape falls
to the warn branch. -/

inductive CssUnit where
  | px (v : ℚ)
  | calcAddPct100 (v : ℚ)
  | calcSubPct100 (v : ℚ)
  | otherUnit
deriving DecidableEq, Repr

inductive PositionOffset where
  | off (u : CssUnit)
  | autoOff
deriving DecidableEq, Repr

inductive Property where
  | top (p : PositionOffset)
  | bottom (p : PositionOffset)
  | left (p : PositionOffset)
  | right (p : PositionOffset)
  | otherProp
deriving DecidableEq, Repr

/-- The geometry flip_if_offscreen reads before branching (lines 90-94):
the parent rectangle, the element dimension, the window dimension. -/
structure FlipEnv where
  parentTop : ℚ
  parentRight : ℚ
  parentBottom : ℚ
  parentLeft : ℚ
  selfHeight : ℚ
  selfWidth : ℚ
  windowHeight : ℚ
  windowWidth : ℚ
deriving DecidableEq, Repr

/-- The vertical arm (lines 97-119): a Top px spacing flips to Bottom
when the child would overflow the bottom of the window, a Bottom px
spacing flips to Top when it would overflow the top; anything else warns
and contributes nothing.  Returns the properties pushed and the number of
warnings logged. -/
def flipVerticalArm (env : FlipEnv) (v : Property) : List Property × Nat :=
  match v with
  | Property.top (PositionOffset.off (CssUnit.px f)) =>
    ([if env.parentBottom + f + env.selfHeight > env.windowHeight then
        Property.bottom (PositionOffset.off (CssUnit.calcAddPct100 f))
      else
        Property.top (PositionOffset.off (CssUnit.calcAddPct100 f))], 0)
  | Property.bottom (PositionOffset.off (CssUnit.px f)) =>
    ([if env.parentTop - f - env.selfHeight < 0 then
        Property.top (PositionOffset.off (CssUnit.calcAddPct100 f))
      else
        Property.bottom (PositionOffset.off (CssUnit.calcAddPct100 f))], 0)
  | _ => ([], 1)

/-- The horizontal arm (lines 121-143): a Left px spacing flips to Right
when the child would overflow the right edge, a Right px spacing flips to
Left when it would overflow the left edge; anything else warns and
contributes nothing. -/
def flipHorizontalArm (env : FlipEnv) (h : Property) : List Property × Nat :=
  match h with
  | Property.left (PositionOffset.off (CssUnit.px f)) =>
    ([if env.parentRight + f + env.selfWidth > env.windowWidth then
        Property.right (PositionOffset.off (CssUnit.calcSubPct100 f))
      else
        Property.left (PositionOffset.off (CssUnit.calcSubPct100 f))], 0)
  | Property.right (PositionOffset.off (CssUnit.px f)) =>
    ([if env.parentLeft - f - env.selfWidth < 0 then
        Property.left (PositionOffset.off (CssUnit.calcSubPct100 f))
      else
        Property.right (PositionOffset.off (CssUnit.calcSubPct100 f))], 0)
  | _ => ([], 1)

/-- flip_if_offscreen (lines 89-146): builds new_style by running the
vertical arm when spacing_v is present, then the horizontal arm when
spacing_h is present, and sets the resulting style.  The returned pair is
the new_style list passed to set_style and the total number of warnings
logged; the function is total, so malformed spacing never fails. -/
def flip_if_offscreen (env : FlipEnv) (spacing_v spacing_h : Option Property) :
    List Property × Nat :=
  let va := match spacing_v with
    | none => ([], 0)
    | some v => flipVerticalArm env v
  let ha := match spacing_h with
    | none => ([], 0)
    | some h => flipHorizontalArm env h
  (va.1 ++ ha.1, va.2 + ha.2)

/-- A property shape the vertical arm accepts without warning. -/
def isPxVertical (p : Property) : Bool :=
  match p with
  | Property.top (PositionOffset.off (CssUnit.px _)) => true
  | Property.bottom (PositionOffset.off (CssUnit.px _)) => true
  | _ => false

/-- A property shape the horizontal arm accepts without warning. -/
def isPxHorizontal (p : Property) : Bool :=
  match p with
  | Property.left (PositionOffset.off (CssUnit.px _)) => true
  | Property.right (PositionOffset.off (CssUnit.px _)) => true
  | _ => false

/-! ## Claim theorems -/

/-- C1: on the first delivery to a freshly started loop the user callback
is never invoked (the fire result carries no callback argument, and the
callback state is untouched); when the window is open, the tick records
the delivered timestamp as last_timestamp and re-arms exactly one
registration. -/
theorem C1_first_tick_skips_callback {σ : Type} (f : σ → ℚ → Bool × σ) (fs : σ)
    (inp : TickInput) :
    (fire f inp (initState fs)).2 = FireResult.ticked none ∧
    (fire f inp (initState fs)).1.fstate = fs ∧
    (windowClosed inp = false →
      (fire f inp (initState fs)).1 = ⟨some inp.timestamp, true, 1, fs⟩) := by
  refine ⟨?_, ?_, ?_⟩
  · by_cases hc : windowClosed inp <;> simp [fire, initState, hc]
  · by_cases hc : windowClosed inp <;> simp [fire, initState, hc]
  · intro hc
    simp [fire, initState, hc]

theorem C1_witness :
    windowClosed ⟨some false, 16⟩ = false ∧
    (fire (fun (u : Unit) (_ : ℚ) => (true, u)) ⟨some false, 16⟩ (initState ())).2 =
      FireResult.ticked none ∧
    (fire (fun (u : Unit) (_ : ℚ) => (true, u)) ⟨some false, 16⟩ (initState ())).1 =
      ⟨some 16, true, 1, ()⟩ :=
  ⟨by decide,
   (C1_first_tick_skips_callback (fun u _ => (true, u)) () ⟨some false, 16⟩).1,
   (C1_first_tick_skips_callback (fun u _ => (true, u)) () ⟨some false, 16⟩).2.2 (by decide)⟩

/-- C2: on a tick where a previous timestamp last is recorded and the
window is open, the callback is invoked with exactly
inp.timestamp - last, and last_timestamp is updated to the new timestamp
(in the source the update on line 62 precedes the invocation on line 63);
the callback state advances by one application of f at that delta. -/
theorem C2_delta_is_timestamp_difference {σ : Type} (f : σ → ℚ → Bool × σ)
    (s : LoopState σ) (inp : TickInput) (last : ℚ)
    (hp : s.pending ≠ 0) (hc : windowClosed inp = false)
    (hl : s.lastTimestamp = some last) :
    (fire f inp s).2 = FireResult.ticked (some (inp.timestamp - last)) ∧
    (fire f inp s).1.lastTimestamp = some inp.timestamp ∧
    (fire f inp s).1.fstate = (f s.fstate (inp.timestamp - last)).2 := by
  by_cases hf : (f s.fstate (inp.timestamp - last)).1 <;>
    simp [fire, hp, hc, hl, hf]

theorem C2_witness :
    (fire (fun (u : Unit) (_ : ℚ) => (true, u)) ⟨some false, 33⟩
        (⟨some 16, true, 1, ()⟩ : LoopState Unit)).2 = FireResult.ticked (some 17) ∧
    (fire (fun (u : Unit) (_ : ℚ) => (true, u)) ⟨some false, 33⟩
        (⟨some 16, true, 1, ()⟩ : LoopState Unit)).1.lastTimestamp = some 33 := by
  have h := C2_delta_is_timestamp_difference (fun (u : Unit) (_ : ℚ) => (true, u))
    (⟨some 16, true, 1, ()⟩ : LoopState Unit) ⟨some false, 33⟩ 16
    (by decide) (by decide) rfl
  refine ⟨?_, h.2.1⟩
  have h33 : (33 : ℚ) - 16 = 17 := by norm_num
  simpa [h33] using h.1

/-- C3: if a tick invokes the callback with some delta and the callback
returns false there, the closure cell is emptied, no registration remains
pending, and every later delivery attempt is a noTick that leaves the
state unchanged: no further ticks occur.  The bound pending at most 1 is
the loop invariant established from the initial state. -/
theorem C3_false_return_terminates {σ : Type} (f : σ → ℚ → Bool × σ)
    (inp : TickInput) (s : LoopState σ) (d : ℚ)
    (hinv : s.pending ≤ 1)
    (ht : (fire f inp s).2 = FireResult.ticked (some d))
    (hf : (f s.fstate d).1 = false) :
    (fire f inp s).1.cbAlive = false ∧
    (fire f inp s).1.pending = 0 ∧
    ∀ rest : List TickInput,
      runLoop f rest (fire f inp s).1 =
        ((fire f inp s).1, rest.map fun _ => FireResult.noTick) := by
  by_cases hp : s.pending = 0
  · rw [fire_pending_zero f inp s hp] at ht
    simp at ht
  · by_cases hc : windowClosed inp
    · simp [fire, hp, hc] at ht
    · rcases hl : s.lastTimestamp with _ | last
      · simp [fire, hp, hc, hl] at ht
      · have hd : inp.timestamp - last = d := by
          by_cases hfb : (f s.fstate (inp.timestamp - last)).1 <;>
            simp [fire, hp, hc, hl, hfb] at ht <;> exact ht
        subst hd
        have hfire : fire f inp s =
            (⟨some inp.timestamp, false, s.pending - 1, (f s.fstate (inp.timestamp - last)).2⟩,
              FireResult.ticked (some (inp.timestamp - last))) := by
          simp [fire, hp, hc, hl, hf]
        have hz : s.pending - 1 = 0 := by omega
        rw [hfire]
        exact ⟨rfl, hz, fun rest => runLoop_halted f rest _ hz⟩

theorem C3_witness :
    ((fire (fun (u : Unit) (_ : ℚ) => (false, u)) ⟨some false, 33⟩
        (⟨some 16, true, 1, ()⟩ : LoopState Unit)).1.cbAlive = false) ∧
    ((fire (fun (u : Unit) (_ : ℚ) => (false, u)) ⟨some false, 33⟩
        (⟨some 16, true, 1, ()⟩ : LoopState Unit)).1.pending = 0) ∧
    runLoop (fun (u : Unit) (_ : ℚ) => (false, u)) [⟨some false, 50⟩, ⟨some false, 67⟩]
        (fire (fun (u : Unit) (_ : ℚ) => (false, u)) ⟨some false, 33⟩
          (⟨some 16, true, 1, ()⟩ : LoopState Unit)).1 =
      ((fire (fun (u : Unit) (_ : ℚ) => (false, u)) ⟨some false, 33⟩
          (⟨some 16, true, 1, ()⟩ : LoopState Unit)).1,
        [FireResult.noTick, FireResult.noTick]) := by
  have ht : (fire (fun (u : Unit) (_ : ℚ) => (false, u)) ⟨some false, 33⟩
      (⟨some 16, true, 1, ()⟩ : LoopState Unit)).2 = FireResult.ticked (some 17) := by
    norm_num [fire, windowClosed]
  have h := C3_false_return_terminates (fun (u : Unit) (_ : ℚ) => (false, u))
    ⟨some false, 33⟩ (⟨some 16, true, 1, ()⟩ : LoopState Unit) 17
    (by decide) ht rfl
  exact ⟨h.1, h.2.1, h.2.2 [⟨some false, 50⟩, ⟨some false, 67⟩]⟩

/-- C4: when the window reports itself closed at a tick that fires, the
closure cell is emptied before anything else: the callback is not invoked
on that tick (fire result ticked none, callback state untouched, and this
holds for every callback f), no registration is re-armed, and every later
delivery attempt is a noTick leaving the state unchanged. -/
theorem C4_closed_window_stops {σ : Type} (f : σ → ℚ → Bool × σ)
    (inp : TickInput) (s : LoopState σ)
    (hp : s.pending = 1) (hc : windowClosed inp = true) :
    fire f inp s = (⟨s.lastTimestamp, false, 0, s.fstate⟩, FireResult.ticked none) ∧
    ∀ rest : List TickInput,
      runLoop f rest (fire f inp s).1 =
        ((fire f inp s).1, rest.map fun _ => FireResult.noTick) := by
  have hfire : fire f inp s = (⟨s.lastTimestamp, false, 0, s.fstate⟩, FireResult.ticked none) := by
    simp [fire, hp, hc]
  refine ⟨hfire, fun rest => ?_⟩
  rw [hfire]
  exact runLoop_halted f rest _ rfl

theorem C4_witness :
    fire (fun (u : Unit) (_ : ℚ) => (true, u)) ⟨some true, 33⟩
        (⟨some 16, true, 1, ()⟩ : LoopState Unit) =
      (⟨some 16, false, 0, ()⟩, FireResult.ticked none) ∧
    runLoop (fun (u : Unit) (_ : ℚ) => (true, u)) [⟨some false, 50⟩]
        (fire (fun (u : Unit) (_ : ℚ) => (true, u)) ⟨some true, 33⟩
          (⟨some 16, true, 1, ()⟩ : LoopState Unit)).1 =
      ((fire (fun (u : Unit) (_ : ℚ) => (true, u)) ⟨some true, 33⟩
          (⟨some 16, true, 1, ()⟩ : LoopState Unit)).1, [FireResult.noTick]) := by
  have h := C4_closed_window_stops (fun (u : Unit) (_ : ℚ) => (true, u))
    ⟨some true, 33⟩ (⟨some 16, true, 1, ()⟩ : LoopState Unit) rfl (by decide)
  exact ⟨h.1, h.2 [⟨some false, 50⟩]⟩

/-- C5: both cancellation conditions gate each tick before the tick does
any other work.  The closed-window check is the first thing the body
runs: the callback is only ever invoked on ticks where the window is
open, and a closed tick releases the closure and performs no other work
(no timestamp recording, no callback-state change, no re-arming).
Callback-requested termination is enforced even earlier: it leaves no
registration pending, so a delivery attempt after it does nothing at
all. -/
theorem C5_cancellation_gates_each_tick {σ : Type} (f : σ → ℚ → Bool × σ)
    (inp : TickInput) (s : LoopState σ) :
    (∀ d : ℚ, (fire f inp s).2 = FireResult.ticked (some d) → windowClosed inp = false) ∧
    (s.pending = 0 → fire f inp s = (s, FireResult.noTick)) ∧
    (windowClosed inp = true → s.pending ≠ 0 →
      fire f inp s =
        (⟨s.lastTimestamp, false, s.pending - 1, s.fstate⟩, FireResult.ticked none)) := by
  refine ⟨?_, fun hz => fire_pending_zero f inp s hz, fun hc hp => by simp [fire, hp, hc]⟩
  intro d ht
  by_cases hc : windowClosed inp
  · by_cases hp : s.pending = 0
    · rw [fire_pending_zero f inp s hp] at ht
      simp at ht
    · simp [fire, hp, hc] at ht
  · simpa using hc

theorem C5_witness :
    windowClosed (⟨some false, 33⟩ : TickInput) = false ∧
    fire (fun (u : Unit) (_ : ℚ) => (true, u)) ⟨some false, 33⟩
        (⟨some 16, true, 0, ()⟩ : LoopState Unit) =
      ((⟨some 16, true, 0, ()⟩ : LoopState Unit), FireResult.noTick) ∧
    fire (fun (u : Unit) (_ : ℚ) => (true, u)) ⟨some true, 33⟩
        (⟨some 16, true, 1, ()⟩ : LoopState Unit) =
      ((⟨some 16, false, 0, ()⟩ : LoopState Unit), FireResult.ticked none) := by
  have ht : (fire (fun (u : Unit) (_ : ℚ) => (true, u)) ⟨some false, 33⟩
      (⟨some 16, true, 1, ()⟩ : LoopState Unit)).2 = FireResult.ticked (some 17) := by
    norm_num [fire, windowClosed]
  refine ⟨(C5_cancellation_gates_each_tick (fun (u : Unit) (_ : ℚ) => (true, u))
      ⟨some false, 33⟩ (⟨some 16, true, 1, ()⟩ : LoopState Unit)).1 17 ht, ?_, ?_⟩
  · exact (C5_cancellation_gates_each_tick (fun (u : Unit) (_ : ℚ) => (true, u))
      ⟨some false, 33⟩ (⟨some 16, true, 0, ()⟩ : LoopState Unit)).2.1 rfl
  · exact (C5_cancellation_gates_each_tick (fun (u : Unit) (_ : ℚ) => (true, u))
      ⟨some true, 33⟩ (⟨some 16, true, 1, ()⟩ : LoopState Unit)).2.2 (by decide) (by decide)

/-- C6: at most one registration is ever pending: after every finite
prefix of deliveries from the start of the loop, the pending count is at
most 1.  Moreover a tick fired from the live one-pending state re-arms
exactly one registration when the loop continues (closure still alive)
and arms none when it stops. -/
theorem C6_at_most_one_pending {σ : Type} (f : σ → ℚ → Bool × σ) (fs : σ) :
    (∀ pre : List TickInput, (runLoop f pre (initState fs)).1.pending ≤ 1) ∧
    (∀ s : LoopState σ, ∀ inp : TickInput, s.pending = 1 → s.cbAlive = true →
      (fire f inp s).1.pending = if (fire f inp s).1.cbAlive then 1 else 0) := by
  constructor
  · intro pre
    exact (runLoop_preserves_inv f pre (initState fs) (loopInv_init fs)).1
  · intro s inp hp halive
    have hp0 : ¬s.pending = 0 := by omega
    by_cases hc : windowClosed inp
    · simp [fire, hp0, hc, hp]
    · rcases hl : s.lastTimestamp with _ | last
      · simp [fire, hp0, hc, hl, hp, halive]
      · by_cases hf : (f s.fstate (inp.timestamp - last)).1
        · simp [fire, hp0, hc, hl, hf, hp, halive]
        · simp [fire, hp0, hc, hl, hf, hp]

theorem C6_witness :
    ((runLoop (fun (u : Unit) (_ : ℚ) => (true, u))
        [⟨some false, 0⟩, ⟨some false, 16⟩] (initState ())).1.pending ≤ 1) ∧
    (fire (fun (u : Unit) (_ : ℚ) => (true, u)) ⟨some false, 33⟩
        (⟨some 16, true, 1, ()⟩ : LoopState Unit)).1.pending =
      if (fire (fun (u : Unit) (_ : ℚ) => (true, u)) ⟨some false, 33⟩
          (⟨some 16, true, 1, ()⟩ : LoopState Unit)).1.cbAlive then 1 else 0 :=
  ⟨(C6_at_most_one_pending (fun (u : Unit) (_ : ℚ) => (true, u)) ()).1
      [⟨some false, 0⟩, ⟨some false, 16⟩],
   (C6_at_most_one_pending (fun (u : Unit) (_ : ℚ) => (true, u)) ()).2
      (⟨some 16, true, 1, ()⟩ : LoopState Unit) ⟨some false, 33⟩ rfl rfl⟩

/-- C7: while the element is clicked, every mouse move invokes the
callback with clamp((mouse_x - left) / width, 0, 1); with width 100 and
left 0, mouse at 150 gives 1, at -10 gives 0, at 50 gives one half.
While the element is not clicked the callback is not invoked. -/
theorem C7_slide_position (e : Element) (l w x : ℚ) :
    (clicked e = true → slideHandler e l w x = some (rustClamp ((x - l) / w) 0 1)) ∧
    (clicked e = false → slideHandler e l w x = none) ∧
    (clicked e = true →
      slideHandler e 0 100 150 = some 1 ∧
      slideHandler e 0 100 (-10) = some 0 ∧
      slideHandler e 0 100 50 = some (1 / 2)) := by
  refine ⟨fun h => by simp [slideHandler, h], fun h => by simp [slideHandler, h], fun h => ?_⟩
  refine ⟨?_, ?_, ?_⟩ <;> norm_num [slideHandler, h, rustClamp]

theorem C7_witness :
    slideHandler ⟨some true, 1, 1⟩ 0 100 150 = some 1 ∧
    slideHandler ⟨some true, 1, 1⟩ 0 100 (-10) = some 0 ∧
    slideHandler ⟨some true, 1, 1⟩ 0 100 50 = some (1 / 2) ∧
    slideHandler ⟨some false, 1, 1⟩ 0 100 50 = none ∧
    slideHandler ⟨none, 0, 0⟩ 0 100 50 = none := by
  have hc := (C7_slide_position (⟨some true, 1, 1⟩ : Element) 0 100 50).2.2 rfl
  have hu := (C7_slide_position (⟨some false, 1, 1⟩ : Element) 0 100 50).2.1 rfl
  have hn := (C7_slide_position (⟨none, 0, 0⟩ : Element) 0 100 50).2.1 rfl
  exact ⟨hc.1, hc.2.1, hc.2.2, hu, hn⟩

theorem flipVerticalArm_warns (env : FlipEnv) (v : Property)
    (h : isPxVertical v = false) : flipVerticalArm env v = ([], 1) := by
  rcases v with p | p | p | p
  · rcases p with u | _
    · rcases u with f | f | f
      · simp [isPxVertical] at h
      all_goals rfl
    · rfl
  · rcases p with u | _
    · rcases u with f | f | f
      · simp [isPxVertical] at h
      all_goals rfl
    · rfl
  all_goals rfl

theorem flipHorizontalArm_warns (env : FlipEnv) (h : Property)
    (hh : isPxHorizontal h = false) : flipHorizontalArm env h = ([], 1) := by
  rcases h with p | p | p | p
  case left =>
    rcases p with u | _
    · rcases u with f | f | f
      · simp [isPxHorizontal] at hh
      all_goals rfl
    · rfl
  case right =>
    rcases p with u | _
    · rcases u with f | f | f
      · simp [isPxHorizontal] at hh
      all_goals rfl
    · rfl
  all_goals rfl

/-- C8: a vertical spacing that is not a Top or Bottom property in px
units contributes no vertical property to the new style and is counted as
one logged warning; symmetrically a horizontal spacing that is not a Left
or Right property in px units contributes no horizontal property and one
warning.  flip_if_offscreen is a total function, so such inputs never
make the call fail. -/
theorem C8_nonpx_spacing_warned_and_skipped (env : FlipEnv) (v hz : Property)
    (other : Option Property) :
    (isPxVertical v = false →
      (flip_if_offscreen env (some v) other).1 = (flip_if_offscreen env none other).1 ∧
      (flip_if_offscreen env (some v) other).2 = (flip_if_offscreen env none other).2 + 1) ∧
    (isPxHorizontal hz = false →
      (flip_if_offscreen env other (some hz)).1 = (flip_if_offscreen env other none).1 ∧
      (flip_if_offscreen env other (some hz)).2 = (flip_if_offscreen env other none).2 + 1) := by
  constructor
  · intro h
    rw [show flip_if_offscreen env (some v) other =
        ((flipVerticalArm env v).1 ++ (match other with
            | none => ([], 0)
            | some h => flipHorizontalArm env h : List Property × Nat).1,
          (flipVerticalArm env v).2 + (match other with
            | none => ([], 0)
            | some h => flipHorizontalArm env h : List Property × Nat).2) from rfl]
    rw [flipVerticalArm_warns env v h]
    cases other <;> · simp [flip_if_offscreen]
                      try omega
  · intro h
    rw [show flip_if_offscreen env other (some hz) =
        ((match other with
            | none => ([], 0)
            | some v => flipVerticalArm env v : List Property × Nat).1 ++
              (flipHorizontalArm env hz).1,
          (match other with
            | none => ([], 0)
            | some v => flipVerticalArm env v : List Property × Nat).2 +
            (flipHorizontalArm env hz).2) from rfl]
    rw [flipHorizontalArm_warns env hz h]
    cases other <;> simp [flip_if_offscreen]

theorem C8_witness :
    (flip_if_offscreen ⟨0, 0, 0, 0, 10, 10, 100, 100⟩
        (some (Property.left (PositionOffset.off (CssUnit.px 5)))) none).1 = [] ∧
    (flip_if_offscreen ⟨0, 0, 0, 0, 10, 10, 100, 100⟩
        (some (Property.left (PositionOffset.off (CssUnit.px 5)))) none).2 = 1 ∧
    (flip_if_offscreen ⟨0, 0, 0, 0, 10, 10, 100, 100⟩ none
        (some (Property.top (PositionOffset.off CssUnit.otherUnit)))).1 = [] ∧
    (flip_if_offscreen ⟨0, 0, 0, 0, 10, 10, 100, 100⟩ none
        (some (Property.top (PositionOffset.off CssUnit.otherUnit)))).2 = 1 := by
  have hv := (C8_nonpx_spacing_warned_and_skipped ⟨0, 0, 0, 0, 10, 10, 100, 100⟩
    (Property.left (PositionOffset.off (CssUnit.px 5)))
    (Property.top (PositionOffset.off CssUnit.otherUnit)) none).1 rfl
  have hh := (C8_nonpx_spacing_warned_and_skipped ⟨0, 0, 0, 0, 10, 10, 100, 100⟩
    (Property.left (PositionOffset.off (CssUnit.px 5)))
    (Property.top (PositionOffset.off CssUnit.otherUnit)) none).2 rfl
  refine ⟨?_, ?_, ?_, ?_⟩
  · rw [hv.1]; rfl
  · rw [hv.2]; rfl
  · rw [hh.1]; rfl
  · rw [hh.2]; rfl

/-- C9: report_clicked_on_window (and report_clicked, which delegates to
it) is idempotent: an element already carrying the Clicked component is
returned unchanged, with no second component and no additional mouse-down
or mouse-up listeners; in particular a second call is the identity on the
result of a first call. -/
theorem C9_report_clicked_idempotent (e : Element) :
    (e.clickedCmp.isSome = true → report_clicked_on_window e = e) ∧
    report_clicked_on_window (report_clicked_on_window e) = report_clicked_on_window e ∧
    report_clicked (report_clicked e) = report_clicked e := by
  refine ⟨fun h => by simp [report_clicked_on_window, h], ?_, ?_⟩ <;>
    · rcases e with ⟨_ | b, m, u⟩ <;> simp [report_clicked, report_clicked_on_window]

theorem C9_witness :
    report_clicked_on_window ⟨some true, 3, 4⟩ = (⟨some true, 3, 4⟩ : Element) ∧
    report_clicked_on_window (report_clicked_on_window ⟨none, 0, 0⟩) =
      report_clicked_on_window ⟨none, 0, 0⟩ :=
  ⟨(C9_report_clicked_idempotent ⟨some true, 3, 4⟩).1 rfl,
   (C9_report_clicked_idempotent ⟨none, 0, 0⟩).2.1⟩

/-- C10: clicked never fails on an element without the Clicked component:
it returns true exactly when the component is present with flag true, and
returns false when the component is absent. -/
theorem C10_clicked_total (e : Element) :
    (clicked e = true ↔ e.clickedCmp = some true) ∧
    (e.clickedCmp = none → clicked e = false) := by
  rcases e with ⟨_ | b, m, u⟩
  · simp [clicked]
  · cases b <;> simp [clicked]

theorem C10_witness :
    clicked ⟨none, 0, 0⟩ = false ∧
    (clicked ⟨some true, 0, 0⟩ = true ↔
      (⟨some true, 0, 0⟩ : Element).clickedCmp = some true) :=
  ⟨(C10_clicked_total ⟨none, 0, 0⟩).2 rfl, (C10_clicked_total ⟨some true, 0, 0⟩).1⟩

end HoboPlus
